import Mathlib

/- Verification of the noctobot monitoring core.

This file gives a shallow embedding, in Lean, of the detection and
orchestration core of the repository:

* the curated-product title matcher (src/phantom/monitors/products.py,
  CuratedProduct.matches_title and ProductDatabase.match_product_title);
* the per-store Shopify poller's new/restock classification and its
  inventory-state index (src/phantom/monitors/shopify_monitor.py,
  ShopifyStoreMonitor._process_products and _handle_rate_limit);
* the detection-to-event pipeline (MultiStoreMonitor._handle_product and
  MonitorManager._handle_shopify_product);
* the monitor manager's bounded event log, recent/high-priority accessors
  and the auto-trigger policy (src/phantom/monitors/manager.py).

Python dictionaries holding per-product state are embedded as functions
String to Option; Python floats are embedded as rationals, so the numeric
claims are settled for the exact arithmetic the formulas denote; Python
truthiness tests on strings and lists are translated explicitly. -/

namespace Noctobot

/-! ### String helpers (Python substring semantics) -/

/-- Python containment on character lists: the needle occurs as a contiguous
infix of the haystack; the empty needle is contained in everything, as in
Python. -/
def listContains (hay needle : List Char) : Bool :=
  needle.isPrefixOf hay ||
    match hay with
    | [] => false
    | _ :: t => listContains t needle

/-- Python `needle in hay` on strings. -/
def pyIn (needle hay : String) : Bool :=
  listContains hay.data needle.data

/-- Python `s.lower()`: character-wise ASCII lowercasing (embedded via a
list map so that it evaluates in the kernel). -/
def pyLower (s : String) : String :=
  String.mk (s.data.map Char.toLower)

/-- Python `s.lstrip('-')`: drop every leading dash. -/
def lstripDash (s : String) : String :=
  String.mk (s.data.dropWhile (fun c => c == '-'))

/-! ### Curated target registry (products.py) -/

/-- A curated watch target, from `CuratedProduct` in products.py.  The
`release_date` field (an unused datetime) is omitted; prices are rationals. -/
structure CuratedProduct where
  name : String
  brand : String
  positive_keywords : List String
  negative_keywords : List String
  optimized_search : String
  retail_price : ℚ
  current_price : ℚ := 0
  profit_dollar : ℚ := 0
  profit_ratio : ℚ := 0
  priority : String := "medium"
  sku : Option String := none
  style_code : Option String := none
  source : String := "manual"
  enabled : Bool := true
deriving DecidableEq

/-- The negative-keyword rejection test of `matches_title`: some negative
keyword, stripped of leading dashes and lowercased, occurs in the lowercased
title (`neg.lstrip('-').lower() in title_lower`). -/
def negative_hit (p : CuratedProduct) (title : String) : Bool :=
  p.negative_keywords.any (fun neg => pyIn (pyLower (lstripDash neg)) (pyLower title))

/-- Number of positive keywords occurring (lowercased) in the lowercased
title, as counted by the loop in `matches_title`. -/
def matched_count (p : CuratedProduct) (title : String) : Nat :=
  (p.positive_keywords.filter (fun pos => pyIn (pyLower pos) (pyLower title))).length

/-- The base confidence of `matches_title`:
`min(1.0, matched_count / max(2, len(positive_keywords) * 0.5))`. -/
def base_confidence (p : CuratedProduct) (title : String) : ℚ :=
  min 1 ((matched_count p title : ℚ) / max 2 ((p.positive_keywords.length : ℚ) * (1 / 2)))

/-- The SKU / style-code boost condition `self.sku and self.sku.lower() in
title_lower`: the optional field is present, non-empty (Python truthiness),
and occurs lowercased in the lowercased title. -/
def field_hit (f : Option String) (title : String) : Bool :=
  match f with
  | none => false
  | some s => !(s == "") && pyIn (pyLower s) (pyLower title)

/-- Function `CuratedProduct.matches_title` from products.py: negative keywords reject
first; zero positive matches reject; otherwise the base confidence is boosted
by 0.3 (capped at 1) for a SKU hit and again for a style-code hit. -/
def matches_title (p : CuratedProduct) (title : String) : Bool × ℚ :=
  if negative_hit p title then (false, 0)
  else if matched_count p title = 0 then (false, 0)
  else
    let c0 := base_confidence p title
    let c1 := if field_hit p.sku title then min 1 (c0 + 3 / 10) else c0
    let c2 := if field_hit p.style_code title then min 1 (c1 + 3 / 10) else c1
    (true, c2)

/-- Function `ProductDatabase.match_product_title`: match the title against every
enabled target, keep the hits, sort by confidence descending (stable, as
Python's `list.sort`). -/
def match_product_title (db : List CuratedProduct) (title : String) :
    List (CuratedProduct × ℚ) :=
  let ms := (db.filter (fun p => p.enabled)).filterMap (fun p =>
    let r := matches_title p title
    if r.1 then some (p, r.2) else none)
  ms.mergeSort (fun a b => decide (b.2 ≤ a.2))

/-! ### Shopify store poller (shopify_monitor.py) -/

/-- One raw Shopify variant record as read by `_process_products`: `id` is
optional because `variant.get("id")` may be absent. -/
structure Variant where
  id : Option Nat
  available : Bool
  price : ℚ
  sku : String
  title : String
  option1 : String
  option2 : String
  option3 : String
  inventory_quantity : Int
deriving DecidableEq

/-- One raw Shopify product record: `id` is the already-stringified product
id (`str(product.get("id", ""))`), `images` is the list of image source
URLs. -/
structure Product where
  id : String
  title : String
  handle : String
  variants : List Variant
  images : List String
deriving DecidableEq

/-- The per-size entry written into `variant_map` by `_process_products`. -/
structure VariantDetail where
  id : Option Nat
  price : ℚ
  sku : String
  inventory : Int
deriving DecidableEq

/-- Modelled from the spec: the ProductSnapshot record of section 3 (base.py
is not part of the provided sources; every field below is fixed by the
keyword-argument construction in `_process_products`): canonical URL, title,
primary SKU, price, image URL, availability flag, available size labels, and
the size-to-variant-detail mapping.  The unused `raw_data` and the creation
timestamp are omitted. -/
structure ProductInfo where
  url : String
  title : String
  sku : Option String
  price : ℚ
  image_url : Option String
  available : Bool
  sizes_available : List String
  variants : List (String × VariantDetail)
deriving DecidableEq

/-- The poller's mutable inventory-state index: the snapshot map
`_seen_products`, the variant-set map `_seen_variants`, and the store's
`products_found` counter. -/
structure StoreState where
  seen_products : String → Option ProductInfo
  seen_variants : String → Option (Finset (Option Nat))
  products_found : Nat

/-- The poller's fixed configuration: base URL, the normalized target-size
filter, and the variant-size extraction function (`_extract_size`, a
self-contained normalization routine whose internals no claim depends on). -/
structure MonitorConfig where
  base_url : String
  target_sizes : List String
  extractSize : Variant → Option String

/-- Python dictionary update `d[k] = v` on a function-embedded map. -/
def mapUpd {β : Type} (f : String → Option β) (k : String) (v : β) :
    String → Option β :=
  fun q => if q = k then some v else f q

/-- Python dictionary insertion with overwrite, preserving insertion order,
for the `variant_map[size] = detail` writes. -/
def dictInsert (d : List (String × VariantDetail)) (k : String) (v : VariantDetail) :
    List (String × VariantDetail) :=
  if d.any (fun kv => kv.1 == k) then
    d.map (fun kv => if kv.1 == k then (k, v) else kv)
  else d ++ [(k, v)]

/-- Python `available_variants = [v for v in variants if v.get("available", False)]`. -/
def availableVariants (p : Product) : List Variant :=
  p.variants.filter (fun v => v.available)

/-- Python `current_variant_ids = {v.get("id") for v in available_variants}`. -/
def currentVariantIds (p : Product) : Finset (Option Nat) :=
  ((availableVariants p).map (fun v => v.id)).toFinset

/-- The size/variant-map accumulation loop of `_process_products`: for each
available variant whose extracted size is truthy (present and non-empty),
append the size and write the variant detail under it. -/
def buildSizesAndMap (extractSize : Variant → Option String) (avail : List Variant) :
    List String × List (String × VariantDetail) :=
  avail.foldl (fun acc v =>
    match extractSize v with
    | some size =>
        if size == "" then acc
        else (acc.1 ++ [size], dictInsert acc.2 size ⟨v.id, v.price, v.sku, v.inventory_quantity⟩)
    | none => acc) ([], [])

/-- The target-size filter step: with no configured target sizes the size
list passes unchanged; otherwise it is intersected with the target sizes and
the product is dropped (`none`) when the intersection is empty. -/
def sizeFilter (target_sizes : List String) (sizes_available : List String) :
    Option (List String) :=
  if target_sizes = [] then some sizes_available
  else
    let matching_sizes := sizes_available.filter (fun s => target_sizes.contains s)
    if matching_sizes = [] then none else some matching_sizes

/-- The `ProductInfo(...)` construction in `_process_products`: URL from the
handle, SKU from the first raw variant, price from the first available
variant, image from the first image. -/
def mkProductInfo (m : MonitorConfig) (p : Product) (sizes : List String)
    (vmap : List (String × VariantDetail)) : ProductInfo :=
  { url := m.base_url ++ "/products/" ++ p.handle
    title := p.title
    sku := (p.variants.head?).map (fun v => v.sku)
    price := (((availableVariants p).head?).map (fun v => v.price)).getD 0
    image_url := p.images.head?
    available := true
    sizes_available := sizes
    variants := vmap }

/-- One iteration of the product loop of
`ShopifyStoreMonitor._process_products`: classify the product against the
inventory-state index and return the updated index together with the
detection, if any.  Mirrors the source branch for branch: no available
variants updates a seen product's variant-set entry to the empty set without
reporting; a size-filter miss drops the product; an unseen product id is a
new product (both maps written, counter bumped); a seen product is a restock
exactly when the current variant-id set minus the recorded one is non-empty
(both maps written); otherwise nothing happens. -/
def processProduct (m : MonitorConfig) (s : StoreState) (p : Product) :
    StoreState × Option ProductInfo :=
  let avail := availableVariants p
  if avail = [] then
    match s.seen_products p.id with
    | some _ => ({ s with seen_variants := mapUpd s.seen_variants p.id ∅ }, none)
    | none => (s, none)
  else
    match sizeFilter m.target_sizes (buildSizesAndMap m.extractSize avail).1 with
    | none => (s, none)
    | some sizes =>
      let info := mkProductInfo m p sizes (buildSizesAndMap m.extractSize avail).2
      let current := currentVariantIds p
      match s.seen_products p.id with
      | none =>
          ({ seen_products := mapUpd s.seen_products p.id info
             seen_variants := mapUpd s.seen_variants p.id current
             products_found := s.products_found + 1 }, some info)
      | some _ =>
          let old := (s.seen_variants p.id).getD ∅
          if current \ old ≠ ∅ then
            ({ seen_products := mapUpd s.seen_products p.id info
               seen_variants := mapUpd s.seen_variants p.id current
               products_found := s.products_found }, some info)
          else (s, none)

/-- The whole product loop of `_process_products`: fold `processProduct` over
the page's products, collecting the detections in order. -/
def processProducts (m : MonitorConfig) (s : StoreState) (ps : List Product) :
    StoreState × List ProductInfo :=
  match ps with
  | [] => (s, [])
  | p :: rest =>
      let r := processProduct m s p
      let rr := processProducts m r.1 rest
      (rr.1, r.2.toList ++ rr.2)

/-- The invariant of the inventory-state index (spec section 3): every
product id with a snapshot entry has a (possibly empty) variant-set entry. -/
def IndexInv (s : StoreState) : Prop :=
  ∀ pid, (s.seen_products pid).isSome = true → (s.seen_variants pid).isSome = true

/-! ### Rate-limit backoff (shopify_monitor.py, _handle_rate_limit) -/

/-- The `MonitoredStore` runtime record (counters only, as mutated by the
poller). -/
structure MonitoredStore where
  name : String
  url : String
  enabled : Bool
  delay_ms : Nat
  error_count : Nat
  success_count : Nat
  products_found : Nat
deriving DecidableEq

/-- The poller's rate/backoff state: `_consecutive_errors` and
`_backoff_until`. -/
structure RateState where
  consecutive_errors : Nat
  backoff_until : ℚ
deriving DecidableEq

/-- Delay `min(300, 10 * (2 ** consecutive_errors))`, the backoff delay in
seconds. -/
def backoffDelay (n : Nat) : Nat :=
  min 300 (10 * 2 ^ n)

/-- Function `ShopifyStoreMonitor._handle_rate_limit`, given the current time: set
backoff-until to now plus the delay, bump the consecutive-error counter and
the store's error counter. -/
def handle_rate_limit (now : ℚ) (r : RateState) (store : MonitoredStore) :
    RateState × MonitoredStore :=
  let backoff_time := backoffDelay r.consecutive_errors
  (⟨r.consecutive_errors + 1, now + (backoff_time : ℚ)⟩,
   { store with error_count := store.error_count + 1 })

/-! ### Detection-to-event pipeline (shopify_monitor.py / manager.py) -/

/-- Record `DetectedProduct` from shopify_monitor.py, with the store reduced to its
record.  `is_restock` and `new_sizes` have the dataclass defaults. -/
structure DetectedProduct where
  info : ProductInfo
  store : MonitoredStore
  matched_curated : Option CuratedProduct
  match_confidence : ℚ
  is_restock : Bool
  new_sizes : List String

/-- Function `MultiStoreMonitor._handle_product`: run the title through the curated
registry, take the best match, and build the `DetectedProduct` — note the
construction passes neither `is_restock` nor `new_sizes`, so both keep their
dataclass defaults (`False`, `[]`). -/
def handle_product (db : List CuratedProduct) (store : MonitoredStore)
    (product : ProductInfo) : DetectedProduct :=
  let found := match_product_title db product.title
  { info := product
    store := store
    matched_curated := (found.head?).map (fun x => x.1)
    match_confidence := ((found.head?).map (fun x => x.2)).getD 0
    is_restock := false
    new_sizes := [] }

/-- Record `MonitorEvent` from manager.py (the DetectionEvent of the spec); the
creation timestamp is omitted. -/
structure MonitorEvent where
  event_type : String
  source : String
  store_name : String
  product : ProductInfo
  matched_product : Option CuratedProduct
  match_confidence : ℚ
deriving DecidableEq

/-- The derived priority of an event (`MonitorEvent.priority`): the matched
target's tier, or low when unmatched. -/
def MonitorEvent.priority (e : MonitorEvent) : String :=
  match e.matched_product with
  | some p => p.priority
  | none => "low"

/-- Function `MonitorManager._handle_shopify_product`: wrap a detected product into an
event whose kind is restock exactly when the detection's `is_restock` flag is
set. -/
def handle_shopify_product (d : DetectedProduct) : MonitorEvent :=
  { event_type := if d.is_restock then "restock" else "new_product"
    source := "shopify"
    store_name := d.store.name
    product := d.info
    matched_product := d.matched_curated
    match_confidence := d.match_confidence }

/-! ### Manager event log and trigger policy (manager.py) -/

/-- Python slice `l[-n:]` for a natural n: the whole list when n = 0, else
the last n elements. -/
def pySliceLast {α : Type} (l : List α) (n : Nat) : List α :=
  if n = 0 then l else l.drop (l.length - n)

/-- The event-log update inside `MonitorManager._process_event`: append, then
truncate to the most recent `max_events` when the capacity is exceeded. -/
def store_event (max_events : Nat) (events : List MonitorEvent) (e : MonitorEvent) :
    List MonitorEvent :=
  let events2 := events ++ [e]
  if max_events < events2.length then pySliceLast events2 max_events else events2

/-- Feeding a sequence of events through the log update. -/
def store_events (max_events : Nat) (events : List MonitorEvent)
    (es : List MonitorEvent) : List MonitorEvent :=
  es.foldl (store_event max_events) events

/-- Function `MonitorManager.get_recent_events`: `self._events[-limit:]`. -/
def get_recent_events (events : List MonitorEvent) (limit : Nat) : List MonitorEvent :=
  pySliceLast events limit

/-- Function `MonitorManager.get_high_priority_events`: filter the log to
high-priority events, then `[-limit:]`. -/
def get_high_priority_events (events : List MonitorEvent) (limit : Nat) :
    List MonitorEvent :=
  pySliceLast (events.filter (fun e => e.priority == "high")) limit

/-- The `priority_levels` dictionary of `_should_create_task`. -/
def priority_levels (p : String) : Option Nat :=
  if p = "low" then some 0
  else if p = "medium" then some 1
  else if p = "high" then some 2
  else none

/-- Function `MonitorManager._should_create_task`: require a match, confidence at
least the configured minimum, and event priority level at least the
configured minimum level (defaults 0 and 1 for unknown strings, as the
Python `dict.get` calls). -/
def should_create_task (min_confidence : ℚ) (min_priority : String)
    (e : MonitorEvent) : Bool :=
  match e.matched_product with
  | none => false
  | some _ =>
      if e.match_confidence < min_confidence then false
      else decide ((priority_levels min_priority).getD 1 ≤ (priority_levels e.priority).getD 0)

/-- The priority ordering of the spec's trigger policy, low(0) < medium(1) <
high(2), written from the spec's words for comparison with the code's
`priority_levels` lookups. -/
def tier_value (p : String) : Nat :=
  if p = "high" then 2 else if p = "medium" then 1 else 0

/-! ### Concrete values used by witnesses and counterexamples -/

/-- A monitor configuration with no target-size filter and a size extractor
that finds no sizes. -/
def demoCfg : MonitorConfig :=
  { base_url := "https://example.com", target_sizes := [], extractSize := fun _ => none }

/-- An available variant with id 1. -/
def demoVar1 : Variant :=
  { id := some 1, available := true, price := 100, sku := "SK1", title := "10"
    option1 := "", option2 := "", option3 := "", inventory_quantity := 5 }

/-- An available variant with id 2. -/
def demoVar2 : Variant :=
  { id := some 2, available := true, price := 100, sku := "SK2", title := "11"
    option1 := "", option2 := "", option3 := "", inventory_quantity := 3 }

/-- Product p1 observed with only variant 1 available. -/
def demoP1 : Product :=
  { id := "p1", title := "Shoe", handle := "shoe", variants := [demoVar1], images := [] }

/-- Product p1 observed again with variants 1 and 2 available. -/
def demoP2 : Product :=
  { id := "p1", title := "Shoe", handle := "shoe", variants := [demoVar1, demoVar2], images := [] }

/-- The empty inventory-state index. -/
def emptyState : StoreState :=
  { seen_products := fun _ => none, seen_variants := fun _ => none, products_found := 0 }

/-- The index after the first poll saw p1 with variant 1. -/
def demoS1 : StoreState :=
  (processProduct demoCfg emptyState demoP1).1

/-- A store record. -/
def demoStore : MonitoredStore :=
  { name := "demo", url := "https://example.com", enabled := true, delay_ms := 3000
    error_count := 0, success_count := 0, products_found := 0 }

/-- A concrete product snapshot for building events. -/
def demoInfoA : ProductInfo :=
  { url := "https://example.com/products/shoe", title := "Shoe", sku := some "SK1"
    price := 100, image_url := none, available := true, sizes_available := []
    variants := [] }

/-- An unmatched event from store a. -/
def evA : MonitorEvent :=
  { event_type := "new_product", source := "shopify", store_name := "a"
    product := demoInfoA, matched_product := none, match_confidence := 0 }

/-- An unmatched event from store b. -/
def evB : MonitorEvent :=
  { event_type := "new_product", source := "shopify", store_name := "b"
    product := demoInfoA, matched_product := none, match_confidence := 0 }

/-- An unmatched event from store c. -/
def evC : MonitorEvent :=
  { event_type := "new_product", source := "shopify", store_name := "c"
    product := demoInfoA, matched_product := none, match_confidence := 0 }

/-- A high-priority curated target with one positive keyword. -/
def demoTargetHigh : CuratedProduct :=
  { name := "t", brand := "b", positive_keywords := ["dunk"], negative_keywords := []
    optimized_search := "", retail_price := 100, priority := "high" }

/-- An event matched to the high-priority target with confidence 0.9. -/
def evHigh : MonitorEvent :=
  { event_type := "new_product", source := "shopify", store_name := "a"
    product := demoInfoA, matched_product := some demoTargetHigh
    match_confidence := 9 / 10 }

/-- The curated target used by the C2 counterexample: negative keyword
"-kids", positive keyword "jordan". -/
def cexTarget : CuratedProduct :=
  { name := "cex", brand := "jordan", positive_keywords := ["jordan"]
    negative_keywords := ["-kids"], optimized_search := "", retail_price := 100
    priority := "high" }

/-- A curated target with two positive keywords and a SKU, for the C2
witness. -/
def wTarget : CuratedProduct :=
  { name := "w", brand := "nike", positive_keywords := ["dunk", "panda"]
    negative_keywords := ["-kids"], optimized_search := "", retail_price := 100
    priority := "medium", sku := some "DD1391" }

/-- A seen snapshot used by the C9 witness state. -/
def wInfo : ProductInfo :=
  { url := "https://example.com/products/shoe", title := "Shoe", sku := some "SK1"
    price := 100, image_url := none, available := true, sizes_available := []
    variants := [] }

/-- A state in which p1 is recorded with variant set containing ids 1 and 2. -/
def wSeenState : StoreState :=
  { seen_products := fun k => if k = "p1" then some wInfo else none
    seen_variants := fun k => if k = "p1" then some {some 1, some 2} else none
    products_found := 1 }

/-! ### Helper lemmas -/

/-- For a positive count, the Python slice from the end is a drop. -/
theorem pySliceLast_pos {α : Type} (l : List α) (n : Nat) (h : 0 < n) :
    pySliceLast l n = l.drop (l.length - n) := by
  rw [pySliceLast, if_neg (Nat.pos_iff_ne_zero.mp h)]

/-- Length of the Python end slice. -/
theorem length_pySliceLast {α : Type} (l : List α) (n : Nat) :
    (pySliceLast l n).length = if n = 0 then l.length else l.length - (l.length - n) := by
  by_cases h : n = 0 <;> simp [pySliceLast, h]

/-- One log append-and-truncate step maps the last cap elements of l to the
last cap elements of l extended by e. -/
theorem store_event_rtake (cap : Nat) (hcap : 0 < cap) (l : List MonitorEvent)
    (e : MonitorEvent) :
    store_event cap (l.rtake cap) e = (l ++ [e]).rtake cap := by
  rcases Nat.lt_or_ge l.length cap with hlt | hge
  · have h1 : l.rtake cap = l := by
      rw [List.rtake, Nat.sub_eq_zero_of_le (Nat.le_of_lt hlt), List.drop_zero]
    have h2 : (l ++ [e]).rtake cap = l ++ [e] := by
      rw [List.rtake, List.length_append, List.length_singleton,
        Nat.sub_eq_zero_of_le (by omega), List.drop_zero]
    rw [h1, h2, store_event]
    simp only [List.length_append, List.length_singleton]
    rw [if_neg (by omega)]
  · have hlen : (l.rtake cap).length = cap := by
      rw [List.rtake, List.length_drop]; omega
    rw [store_event]
    simp only [List.length_append, List.length_singleton, hlen]
    rw [if_pos (by omega), pySliceLast_pos _ _ hcap]
    simp only [List.length_append, List.length_singleton, hlen]
    rw [List.drop_append_of_le_length (by omega), List.rtake, List.rtake,
      List.drop_drop, List.length_append, List.length_singleton,
      List.drop_append_of_le_length (by omega)]
    congr 2
    omega

/-- Feeding any event sequence through the empty log keeps exactly the last
cap events. -/
theorem store_events_rtake (cap : Nat) (hcap : 0 < cap) (es : List MonitorEvent) :
    store_events cap [] es = es.rtake cap := by
  induction es using List.reverseRecOn with
  | nil => simp [store_events, List.rtake]
  | append_singleton l e ih =>
      rw [store_events, List.foldl_append, List.foldl_cons, List.foldl_nil,
        show List.foldl (store_event cap) [] l = store_events cap [] l from rfl,
        ih]
      exact store_event_rtake cap hcap l e

/-! ### C5: rate-limit backoff -/

/-- C5: handling a rate limit at consecutive-error count n sets backoff-until
to now plus min(300, 10 * 2^n) seconds and increments both the
consecutive-error counter and the store's error counter; the delay values for
n = 0,1,2,3,4 are 10,20,40,80,160 and every n at least 5 yields 300. -/
theorem C5_backoff (now : ℚ) (r : RateState) (store : MonitoredStore) :
    ((handle_rate_limit now r store).1.backoff_until
        = now + (backoffDelay r.consecutive_errors : ℚ) ∧
      (handle_rate_limit now r store).1.consecutive_errors = r.consecutive_errors + 1 ∧
      (handle_rate_limit now r store).2.error_count = store.error_count + 1 ∧
      backoffDelay r.consecutive_errors = min 300 (10 * 2 ^ r.consecutive_errors)) ∧
    (backoffDelay 0 = 10 ∧ backoffDelay 1 = 20 ∧ backoffDelay 2 = 40 ∧
      backoffDelay 3 = 80 ∧ backoffDelay 4 = 160 ∧
      ∀ n, 5 ≤ n → backoffDelay n = 300) := by
  refine ⟨⟨rfl, rfl, rfl, rfl⟩, by decide, by decide, by decide, by decide, by decide, ?_⟩
  intro n hn
  have h2 : 2 ^ 5 ≤ 2 ^ n := Nat.pow_le_pow_right (by norm_num) hn
  have h3 : (2 : Nat) ^ 5 = 32 := by norm_num
  have h300 : 300 ≤ 10 * 2 ^ n := by omega
  rw [backoffDelay, Nat.min_eq_left h300]

/-- C5 witness: the theorem applied at a concrete state, and its tail applied
at the concrete consecutive-error count 7, where the delay is capped at 300. -/
theorem C5_backoff_witness :
    (handle_rate_limit 50 ⟨3, 0⟩ demoStore).1.backoff_until = 50 + (backoffDelay 3 : ℚ) ∧
    backoffDelay 7 = 300 :=
  ⟨(C5_backoff 50 ⟨3, 0⟩ demoStore).1.1, (C5_backoff 50 ⟨3, 0⟩ demoStore).2.2.2.2.2.2 7 (by norm_num)⟩

/-! ### C7: event-log bound -/

/-- C7: pushing cap + k events through the manager's log update starting from
the empty log leaves exactly cap events, namely the most recent cap events in
arrival order (the first k are evicted). -/
theorem C7_event_log_bound (cap k : Nat) (es : List MonitorEvent)
    (hcap : 0 < cap) (hlen : es.length = cap + k) :
    (store_events cap [] es).length = cap ∧ store_events cap [] es = es.drop k := by
  have h := store_events_rtake cap hcap es
  constructor
  · rw [h, List.rtake, List.length_drop, hlen]; omega
  · rw [h, List.rtake, hlen]; congr 1; omega

/-- C7 witness: capacity 2, three events: the log holds the last two. -/
theorem C7_event_log_bound_witness :
    (store_events 2 [] [evA, evB, evC]).length = 2 ∧
    store_events 2 [] [evA, evB, evC] = [evA, evB, evC].drop 1 :=
  C7_event_log_bound 2 1 [evA, evB, evC] (by norm_num) rfl

/-! ### C4: recent-events ordering -/

/-- C4 counterexample: with the log holding the two distinct events evA (older)
then evB (newer), recentEvents(2) returns them in arrival order, oldest
first — not most-recent-first as the claim states. -/
theorem C4_counterexample :
    get_recent_events [evA, evB] 2 = [evA, evB] ∧ evA ≠ evB ∧
    get_recent_events [evA, evB] 2 ≠ [evB, evA] := by decide

/-- C4 amended: for every positive limit, recentEvents(limit) returns the most
recent min(limit, stored) events, but ordered in arrival order (oldest of the
kept events first), i.e. the reversal of the newest-first truncation. -/
theorem C4_recent_events (events : List MonitorEvent) (limit : Nat) (h : 0 < limit) :
    get_recent_events events limit = (events.reverse.take limit).reverse ∧
    (get_recent_events events limit).length = min limit events.length := by
  have h1 : get_recent_events events limit = events.rtake limit := by
    rw [get_recent_events, pySliceLast_pos _ _ h, List.rtake]
  constructor
  · rw [h1, List.rtake_eq_reverse_take_reverse]
  · rw [h1, List.rtake, List.length_drop]; omega

/-- C4 witness: the amended theorem applied to a two-event log with limit 1
keeps exactly the newest event. -/
theorem C4_recent_events_witness : get_recent_events [evA, evB] 1 = [evB] := by
  have h := (C4_recent_events [evA, evB] 1 (by norm_num)).1
  simpa using h

/-! ### C10: zero limit returns everything -/

/-- C10: a limit of 0 makes recentEvents return every stored event and
highPriorityEvents return every stored high-priority event (the Python slice
from index -0 is the whole list); any positive limit bounds both results by
the limit. -/
theorem C10_zero_limit :
    (∀ events : List MonitorEvent, get_recent_events events 0 = events) ∧
    (∀ events : List MonitorEvent,
        get_high_priority_events events 0
          = events.filter (fun e => e.priority == "high")) ∧
    (∀ (events : List MonitorEvent) (limit : Nat), 0 < limit →
        (get_recent_events events limit).length ≤ limit ∧
        (get_high_priority_events events limit).length ≤ limit) := by
  refine ⟨fun events => rfl, fun events => rfl, fun events limit h => ⟨?_, ?_⟩⟩
  · rw [get_recent_events, length_pySliceLast, if_neg (Nat.pos_iff_ne_zero.mp h)]
    omega
  · rw [get_high_priority_events, length_pySliceLast, if_neg (Nat.pos_iff_ne_zero.mp h)]
    omega

/-- C10 witness: with limit 0 a two-event log is returned whole, and with
limit 1 the result has at most one event. -/
theorem C10_zero_limit_witness :
    get_recent_events [evA, evB] 0 = [evA, evB] ∧
    (get_recent_events [evA, evB] 1).length ≤ 1 :=
  ⟨C10_zero_limit.1 [evA, evB], (C10_zero_limit.2.2 [evA, evB] 1 (by norm_num)).1⟩

/-! ### C6: auto-trigger policy -/

/-- C6: for valid priority tiers, the trigger policy fires iff the event has a
match, its confidence is at least the configured minimum, and its derived tier
is at least the configured minimum tier under low(0) < medium(1) < high(2);
moreover confidence 0.65 against minimum 0.7 never fires, priority medium
against minimum high never fires, and confidence 0.9 at priority high against
minimum 0.7 / medium always fires. -/
theorem C6_trigger_policy :
    (∀ (e : MonitorEvent) (minConf : ℚ) (minPrio : String),
        (minPrio = "low" ∨ minPrio = "medium" ∨ minPrio = "high") →
        (e.priority = "low" ∨ e.priority = "medium" ∨ e.priority = "high") →
        (should_create_task minConf minPrio e = true ↔
          (e.matched_product ≠ none ∧ minConf ≤ e.match_confidence ∧
            tier_value minPrio ≤ tier_value e.priority))) ∧
    (∀ (e : MonitorEvent) (minPrio : String), e.match_confidence = 65 / 100 →
        should_create_task (7 / 10) minPrio e = false) ∧
    (∀ (e : MonitorEvent) (minConf : ℚ), e.priority = "medium" →
        should_create_task minConf "high" e = false) ∧
    (∀ e : MonitorEvent, e.match_confidence = 9 / 10 → e.priority = "high" →
        should_create_task (7 / 10) "medium" e = true) := by
  refine ⟨?_, ?_, ?_, ?_⟩
  · intro e minConf minPrio hmp hep
    have hmp2 : (priority_levels minPrio).getD 1 = tier_value minPrio := by
      rcases hmp with h | h | h <;> rw [h] <;> decide
    have hep2 : (priority_levels e.priority).getD 0 = tier_value e.priority := by
      rcases hep with h | h | h <;> rw [h] <;> decide
    cases hm : e.matched_product with
    | none => simp [should_create_task, hm]
    | some p =>
        simp only [should_create_task, hm]
        rcases lt_or_le e.match_confidence minConf with hc | hc
        · rw [if_pos hc]
          simp [not_le.mpr hc]
        · rw [if_neg (not_lt.mpr hc), hmp2, hep2]
          simp [hc]
  · intro e minPrio hconf
    cases hm : e.matched_product with
    | none => simp [should_create_task, hm]
    | some p =>
        simp only [should_create_task, hm, hconf]
        rw [if_pos (by norm_num)]
  · intro e minConf hp
    cases hm : e.matched_product with
    | none => simp [should_create_task, hm]
    | some p =>
        simp only [should_create_task, hm, hp]
        split
        · rfl
        · decide
  · intro e hconf hp
    cases hm : e.matched_product with
    | none => simp [MonitorEvent.priority, hm] at hp
    | some p =>
        simp only [should_create_task, hm, hconf, hp]
        rw [if_neg (by norm_num)]
        decide

/-- C6 witness: a matched high-priority event with confidence 0.9 triggers
against minimum confidence 0.7 and minimum tier medium. -/
theorem C6_trigger_policy_witness :
    should_create_task (7 / 10) "medium" evHigh = true :=
  C6_trigger_policy.2.2.2 evHigh rfl (by decide)

/-! ### C2: title matching -/

/-- Boosting a nonnegative confidence by 0.3 capped at 1 stays in the unit
interval. -/
theorem boost_mem {c : ℚ} (h0 : 0 ≤ c) :
    0 ≤ min 1 (c + 3 / 10) ∧ min 1 (c + 3 / 10) ≤ 1 :=
  ⟨le_min (by norm_num) (by linarith), min_le_left _ _⟩

/-- The base confidence lies in the unit interval. -/
theorem base_confidence_bounds (p : CuratedProduct) (title : String) :
    0 ≤ base_confidence p title ∧ base_confidence p title ≤ 1 := by
  constructor
  · refine le_min (by norm_num) (div_nonneg (Nat.cast_nonneg _) ?_)
    exact le_trans (by norm_num) (le_max_left 2 _)
  · exact min_le_left _ _

/-- C2 counterexample: for the target with negative keyword "-kids" and
positive keyword "jordan", and the title "kids jordan", no negative keyword
occurs as a (case-insensitive) substring of the title and one positive
keyword matches, so the claim predicts a match with positive confidence; the
code rejects with (False, 0), because it strips the leading dash and finds
"kids" in the title. -/
theorem C2_counterexample :
    cexTarget.negative_keywords.any
        (fun neg => pyIn (pyLower neg) (pyLower "kids jordan")) = false ∧
    matched_count cexTarget "kids jordan" = 1 ∧
    matches_title cexTarget "kids jordan" = (false, 0) := by decide

/-- C2 amended: matching rejects (no match, confidence 0) iff some negative
keyword, stripped of leading dashes, occurs case-insensitively in the title,
or no positive keyword occurs; otherwise the confidence is
min(1, matchedCount / max(2, 0.5 * totalPositiveKeywords)), boosted by 0.3
capped at 1 when the target's SKU is present, non-empty and occurs in the
title, and again for the style code; the returned confidence always lies in
[0, 1] (and the function is pure, hence deterministic). -/
theorem C2_matching (p : CuratedProduct) (title : String) :
    (negative_hit p title = true → matches_title p title = (false, 0)) ∧
    (negative_hit p title = false → matched_count p title = 0 →
        matches_title p title = (false, 0)) ∧
    (negative_hit p title = false → 0 < matched_count p title →
        matches_title p title =
          (true,
            if field_hit p.style_code title then
              min 1 ((if field_hit p.sku title
                  then min 1 (base_confidence p title + 3 / 10)
                  else base_confidence p title) + 3 / 10)
            else
              (if field_hit p.sku title
                  then min 1 (base_confidence p title + 3 / 10)
                  else base_confidence p title))) ∧
    (0 ≤ (matches_title p title).2 ∧ (matches_title p title).2 ≤ 1) := by
  have hb := base_confidence_bounds p title
  have hc1 : 0 ≤ (if field_hit p.sku title
        then min 1 (base_confidence p title + 3 / 10)
        else base_confidence p title) ∧
      (if field_hit p.sku title
        then min 1 (base_confidence p title + 3 / 10)
        else base_confidence p title) ≤ 1 := by
    split
    · exact boost_mem hb.1
    · exact hb
  refine ⟨?_, ?_, ?_, ?_⟩
  · intro hneg
    simp [matches_title, hneg]
  · intro hneg hz
    simp [matches_title, hneg, hz]
  · intro hneg hpos
    simp only [matches_title, hneg, Bool.false_eq_true, if_false,
      Nat.pos_iff_ne_zero.mp hpos, if_neg (Nat.pos_iff_ne_zero.mp hpos)]
  · by_cases hneg : negative_hit p title = true
    · simp [matches_title, hneg]
    · by_cases hz : matched_count p title = 0
      · simp [matches_title, hneg, hz]
      · simp only [matches_title, if_neg hneg, if_neg hz]
        split
        · exact boost_mem hc1.1
        · exact hc1

/-- C2 witness: the target with positive keywords "dunk" and "panda" and SKU
DD1391 matches the title "nike dunk low panda dd1391" with full confidence
(base min(1, 2/2) = 1, SKU boost capped at 1). -/
theorem C2_matching_witness :
    matches_title wTarget "nike dunk low panda dd1391" =
      (true,
        if field_hit wTarget.style_code "nike dunk low panda dd1391" then
          min 1 ((if field_hit wTarget.sku "nike dunk low panda dd1391"
              then min 1 (base_confidence wTarget "nike dunk low panda dd1391" + 3 / 10)
              else base_confidence wTarget "nike dunk low panda dd1391") + 3 / 10)
        else
          (if field_hit wTarget.sku "nike dunk low panda dd1391"
              then min 1 (base_confidence wTarget "nike dunk low panda dd1391" + 3 / 10)
              else base_confidence wTarget "nike dunk low panda dd1391")) :=
  (C2_matching wTarget "nike dunk low panda dd1391").2.2.1 (by decide) (by decide)

/-! ### C1: new/restock classification -/

/-- C1: for a product that reaches classification (some available variant,
and not dropped by the target-size filter): an unseen product id is reported
as a new product and both index maps are written with the current
observation; a seen product id is reported (as a restock) exactly when the
current variant-id set minus the recorded one is non-empty, in which case
both maps are written with the current observation, and is not reported when
the difference is empty (in particular when the sets are equal); a seen
product with no available variants is not reported but its variant-set entry
is replaced by the empty set. -/
theorem C1_classification (m : MonitorConfig) (s : StoreState) (p : Product) :
    (∀ sizes, availableVariants p ≠ [] →
        sizeFilter m.target_sizes (buildSizesAndMap m.extractSize (availableVariants p)).1
          = some sizes →
        s.seen_products p.id = none →
        processProduct m s p =
          ({ seen_products := mapUpd s.seen_products p.id
                (mkProductInfo m p sizes (buildSizesAndMap m.extractSize (availableVariants p)).2)
             seen_variants := mapUpd s.seen_variants p.id (currentVariantIds p)
             products_found := s.products_found + 1 },
            some (mkProductInfo m p sizes (buildSizesAndMap m.extractSize (availableVariants p)).2))) ∧
    (∀ sizes info0, availableVariants p ≠ [] →
        sizeFilter m.target_sizes (buildSizesAndMap m.extractSize (availableVariants p)).1
          = some sizes →
        s.seen_products p.id = some info0 →
        (currentVariantIds p \ (s.seen_variants p.id).getD ∅ ≠ ∅ →
            processProduct m s p =
              ({ seen_products := mapUpd s.seen_products p.id
                    (mkProductInfo m p sizes (buildSizesAndMap m.extractSize (availableVariants p)).2)
                 seen_variants := mapUpd s.seen_variants p.id (currentVariantIds p)
                 products_found := s.products_found },
                some (mkProductInfo m p sizes (buildSizesAndMap m.extractSize (availableVariants p)).2))) ∧
        (currentVariantIds p \ (s.seen_variants p.id).getD ∅ = ∅ →
            processProduct m s p = (s, none))) ∧
    (∀ info0, availableVariants p = [] → s.seen_products p.id = some info0 →
        processProduct m s p =
          ({ s with seen_variants := mapUpd s.seen_variants p.id ∅ }, none)) := by
  refine ⟨?_, ?_, ?_⟩
  · intro sizes hav hf hseen
    simp only [processProduct, if_neg hav, hf, hseen]
  · intro sizes info0 hav hf hseen
    constructor
    · intro hdiff
      simp only [processProduct, if_neg hav, hf, hseen, if_pos hdiff]
    · intro hdiff
      simp only [processProduct, if_neg hav, hf, hseen]
      rw [if_neg (not_ne_iff.mpr hdiff)]
  · intro info0 hav hseen
    simp only [processProduct, if_pos hav, hseen]

/-- C1 witness: on the empty index, the concrete product p1 (one available
variant, no target-size filter) is reported as a new product and both maps
are written. -/
theorem C1_classification_witness :
    processProduct demoCfg emptyState demoP1 =
      ({ seen_products := mapUpd emptyState.seen_products demoP1.id
            (mkProductInfo demoCfg demoP1 []
              (buildSizesAndMap demoCfg.extractSize (availableVariants demoP1)).2)
         seen_variants := mapUpd emptyState.seen_variants demoP1.id (currentVariantIds demoP1)
         products_found := emptyState.products_found + 1 },
        some (mkProductInfo demoCfg demoP1 []
          (buildSizesAndMap demoCfg.extractSize (availableVariants demoP1)).2)) :=
  (C1_classification demoCfg emptyState demoP1).1 [] (by decide) (by decide) rfl

/-! ### C8: index invariant -/

/-- A single product-processing step preserves the snapshot-key to
variant-key correspondence of the inventory-state index. -/
theorem processProduct_inv (m : MonitorConfig) (s : StoreState) (p : Product)
    (h : IndexInv s) : IndexInv (processProduct m s p).1 := by
  simp only [processProduct]
  split
  · split
    · intro pid hp
      by_cases hpe : pid = p.id
      · simp [mapUpd, hpe]
      · simp only [mapUpd, if_neg hpe]
        exact h pid hp
    · exact h
  · split
    · exact h
    · split
      · intro pid hp
        by_cases hpe : pid = p.id
        · simp [mapUpd, hpe]
        · simp only [mapUpd, if_neg hpe] at hp ⊢
          exact h pid hp
      · split
        · intro pid hp
          by_cases hpe : pid = p.id
          · simp [mapUpd, hpe]
          · simp only [mapUpd, if_neg hpe] at hp ⊢
            exact h pid hp
        · exact h

/-- C8: every poll cycle preserves the invariant that each product id with a
snapshot entry also has a (possibly empty) variant-set entry. -/
theorem C8_index_invariant (m : MonitorConfig) (s : StoreState) (ps : List Product)
    (h : IndexInv s) : IndexInv (processProducts m s ps).1 := by
  induction ps generalizing s with
  | nil => exact h
  | cons p rest ih =>
      simp only [processProducts]
      exact ih _ (processProduct_inv m s p h)

/-- C8 witness: the invariant holds after polling the two concrete
observations of p1 from the empty index (which satisfies it vacuously). -/
theorem C8_index_invariant_witness :
    IndexInv (processProducts demoCfg emptyState [demoP1, demoP2]).1 :=
  C8_index_invariant demoCfg emptyState [demoP1, demoP2]
    (fun pid hp => by simp [emptyState] at hp)

/-! ### C9: losing some variants emits nothing and changes nothing -/

/-- C9: a previously seen product whose current available variant set is a
non-empty proper subset of the recorded one (some variants lost, at least one
still available) produces no detection and leaves the poller state — in
particular both index maps — entirely unchanged. -/
theorem C9_shrunk_variant_set (m : MonitorConfig) (s : StoreState) (p : Product)
    (info0 : ProductInfo) (old : Finset (Option Nat))
    (hseen : s.seen_products p.id = some info0)
    (hvar : s.seen_variants p.id = some old)
    (hne : currentVariantIds p ≠ ∅)
    (hsub : currentVariantIds p ⊂ old) :
    processProduct m s p = (s, none) := by
  have havail : availableVariants p ≠ [] := by
    intro hav
    exact hne (by simp [currentVariantIds, hav])
  have hdiff : currentVariantIds p \ old = ∅ :=
    Finset.sdiff_eq_empty_iff_subset.mpr hsub.subset
  simp only [processProduct, if_neg havail]
  cases hf : sizeFilter m.target_sizes (buildSizesAndMap m.extractSize (availableVariants p)).1 with
  | none => rfl
  | some sizes =>
      simp only [hseen, hvar, Option.getD_some]
      rw [if_neg (not_ne_iff.mpr hdiff)]

/-- C9 witness: p1 recorded with variant ids 1 and 2 and observed with only
variant 1 available yields no detection and the state is unchanged. -/
theorem C9_shrunk_variant_set_witness :
    processProduct demoCfg wSeenState demoP1 = (wSeenState, none) :=
  C9_shrunk_variant_set demoCfg wSeenState demoP1 wInfo {some 1, some 2}
    (by decide) (by decide) (by decide) (by decide)

/-! ### C3: restock classification is lost on the event bus -/

/-- C3: the poller classifies the second observation of p1 as a restock (the
product id is already in the snapshot map and the current variant-id set
gains id 2), yet the event produced by the detection pipeline carries event
kind new_product — `_handle_product` never sets `is_restock`, so
`_handle_shopify_product` can never emit a restock event; indeed every event
built from a Shopify detection has kind new_product. -/
theorem C3_restock_event_kind :
    ((demoS1.seen_products "p1").isSome = true ∧
      currentVariantIds demoP2 \ (demoS1.seen_variants "p1").getD ∅ ≠ ∅ ∧
      ((processProduct demoCfg demoS1 demoP2).2).isSome = true ∧
      (processProduct demoCfg demoS1 demoP2).2.map (fun i =>
          (handle_shopify_product (handle_product [] demoStore i)).event_type)
        = some "new_product") ∧
    (∀ (db : List CuratedProduct) (st : MonitoredStore) (i : ProductInfo),
        (handle_shopify_product (handle_product db st i)).event_type = "new_product") :=
  ⟨by decide, fun db st i => rfl⟩

end Noctobot
